import Mathlib

/-!
Shallow embedding of the data pipeline of the model-earth repository:
the fetch layer (`src/utils/fetchNASAData.js`), the display formatter
(`src/utils/formatter.js`) and the normalization logic of the `Dashboard`
component (`src/App.jsx`, lines 540-625).

Conventions of the embedding:
* JSON numbers are modelled as exact rationals `JNum` (a numerator /
  positive-denominator pair kept in lowest terms by every operation;
  the standard-library `Rat` is not used because its arithmetic is
  `@[irreducible]` and therefore cannot be evaluated inside `decide`).
  Numeric comparisons written in the JavaScript source (`!== -999`)
  are modelled by the cross-multiplication test `jsEqNum`, so they are
  value comparisons even on non-reduced inputs.
* A JSON object keyed by `YYYYMMDD` date strings is modelled as an
  association list `List (Nat × ℚ)`; JavaScript object semantics for
  integer-like keys are modelled explicitly: `Object.keys` returns the
  distinct keys in ascending numeric order, and a duplicated key keeps
  its last value (as `JSON.parse` does).
* A field that may be absent (`undefined` after `?.`) is an `Option`.
* A thrown JavaScript exception is the `Except.error` case; `DataError`
  carries the thrown message, `typeError` models the `TypeError` raised
  by calling `.toFixed` on `undefined`.
* The host environment's UTC offset (minutes east of UTC, the negation
  of JavaScript's `Date.prototype.getTimezoneOffset`) is passed as an
  explicit `tz : Int` parameter wherever the code constructs a local
  `Date` and reads it back through `toISOString`.
-/

/-- A JSON / JavaScript number: an exact rational as a numerator and a
(positive) denominator. All operations below keep results in lowest
terms with a positive denominator. -/
structure JNum where
  n : Int
  d : Nat
deriving DecidableEq

/-- Normalize a fraction with a `Nat` denominator to lowest terms. -/
def jnorm (n : Int) (d : Nat) : JNum :=
  let g := Nat.gcd n.natAbs d
  if g = 0 then ⟨0, 1⟩ else ⟨Int.fdiv n g, d / g⟩

/-- Normalize a fraction with an `Int` denominator (sign moved to the
numerator); a zero denominator is unreachable in the embedded code. -/
def jnormI (n d : Int) : JNum :=
  if d < 0 then jnorm (-n) d.natAbs else jnorm n d.natAbs

/-- Embed an integer. -/
def JNum.ofInt (i : Int) : JNum := ⟨i, 1⟩

/-- Addition of JavaScript numbers. -/
def JNum.addJ (a b : JNum) : JNum :=
  jnorm (a.n * b.d + b.n * a.d) (a.d * b.d)

/-- Multiplication of JavaScript numbers. -/
def JNum.mulJ (a b : JNum) : JNum :=
  jnorm (a.n * b.n) (a.d * b.d)

/-- Division of JavaScript numbers (total; the zero-divisor case is
unreachable in the embedded code paths). -/
def JNum.divJ (a b : JNum) : JNum :=
  jnormI (a.n * b.d) (a.d * b.n)

/-- JavaScript `===` / `!==` on numbers: value equality of the two
fractions, by cross multiplication. -/
def jsEqNum (a b : JNum) : Bool :=
  a.n * b.d == b.n * a.d

/-- `Array.prototype.reduce((sum, val) => sum + val, 0)`. -/
def sumJ (l : List JNum) : JNum :=
  l.foldl JNum.addJ ⟨0, 1⟩

/-- A JSON object with `YYYYMMDD` keys (as `Nat`) and numeric values. -/
abbrev JMap := List (Nat × JNum)

/-- Property read `m[k]`: the last binding wins, as in `JSON.parse`. -/
def jget (m : JMap) (k : Nat) : Option JNum :=
  (m.reverse.find? (fun e => e.1 == k)).map (fun e => e.2)

/-- Optional-chaining read `m?.[k]` on a possibly absent object. -/
def jgetP (o : Option JMap) (k : Nat) : Option JNum :=
  o.bind (fun m => jget m k)

/-- `Object.keys` on an object whose keys are all integer-like strings:
the distinct keys in ascending numeric order (ECMA array-index key order). -/
def objKeys (m : JMap) : List Nat :=
  ((m.map Prod.fst).dedup).insertionSort (fun a b => a ≤ b)

/-- `toFixed` rounding to an integer: nearest, ties toward the larger
integer (the ECMAScript `toFixed` tie rule); `floor (x + 1/2)`. -/
def jsRound (x : JNum) : Int :=
  Int.fdiv (2 * x.n + x.d) (2 * x.d)

/-- `parseFloat(x.toFixed(1))`: round to one decimal place. -/
def round1 (x : JNum) : JNum :=
  jnorm (jsRound (x.mulJ (JNum.ofInt 10))) 10

/-- Errors thrown inside the `Dashboard` data handler. -/
inductive JsErr where
  | dataError (msg : String)
  | typeError
deriving DecidableEq

deriving instance DecidableEq for Except

/-- JavaScript `x !== -999` is false, i.e. `x === -999`, for a possibly
`undefined` `x`: `undefined` is never `=== -999`. -/
def jsEqOpt (o : Option JNum) (b : JNum) : Bool :=
  match o with
  | some q => jsEqNum q b
  | none => false

/-- The shared pattern `value !== -999 ? parseFloat(value.toFixed(1)) : null`
applied to a possibly `undefined` read: an absent value is not `-999`,
so `.toFixed` is called on `undefined` and throws a `TypeError`. -/
def sentinelCheck (v : Option JNum) : Except JsErr (Option JNum) :=
  match v with
  | none => .error .typeError
  | some q =>
    if jsEqNum q (JNum.ofInt (-999)) then .ok none else .ok (some (round1 q))

/-- `parameters.properties.parameter`: the four NASA POWER maps, each of
which may be absent from the payload. -/
structure ParameterMaps where
  T2M : Option JMap
  RH2M : Option JMap
  WS10M : Option JMap
  ALLSKY_SFC_SW_DWN : Option JMap
deriving DecidableEq

/-- The primary payload: either it lacks `properties.parameter`
(any falsy step of `parameters?.properties?.parameter`), or it carries
the parameter maps. -/
inductive PrimaryPayload where
  | invalidShape
  | withParams (params : ParameterMaps)
deriving DecidableEq

/-- The Open-Meteo hourly payload: parallel `time` array and the
possibly absent `diffuse_radiation_instant` array, whose entries may be
`null` / absent / `NaN` (all modelled as `none`, since the code discards
all three identically). -/
structure HourlyData where
  time : List String
  diffuse_radiation_instant : Option (List (Option JNum))
deriving DecidableEq

/-- The secondary fetch result as consumed by the guard
`!radiations || radiations.error || !radiations.hourly || !radiations.hourly[param]`. -/
inductive Radiations where
  | null
  | errorFlag
  | noHourly
  | withHourly (h : HourlyData)
deriving DecidableEq

/-- Zero-pad a natural number to two digits. -/
def pad2 (n : Nat) : String :=
  if n < 10 then "0" ++ toString n else toString n

/-- Zero-pad a natural number to four digits. -/
def pad4 (n : Nat) : String :=
  if n < 10 then "000" ++ toString n
  else if n < 100 then "00" ++ toString n
  else if n < 1000 then "0" ++ toString n
  else toString n

/-- Civil date to days since the Unix epoch (proleptic Gregorian, the
ECMAScript `Date` day-number arithmetic). -/
def daysFromCivil (y m d : Nat) : Int :=
  let yAdj : Int := (y : Int) - (if m ≤ 2 then 1 else 0)
  let era : Int := Int.fdiv yAdj 400
  let yoe : Nat := (yAdj - era * 400).toNat
  let mp : Nat := if 2 < m then m - 3 else m + 9
  let doy : Nat := (153 * mp + 2) / 5 + d - 1
  let doe : Nat := yoe * 365 + yoe / 4 - yoe / 100 + doy
  era * 146097 + (doe : Int) - 719468

/-- Days since the Unix epoch back to a civil `(year, month, day)`
(proleptic Gregorian, as `Date.prototype.toISOString` renders it). -/
def civilFromDays (zin : Int) : Nat × Nat × Nat :=
  let z : Int := zin + 719468
  let era : Int := Int.fdiv z 146097
  let doe : Nat := (z - era * 146097).toNat
  let yoe : Nat := (doe - doe / 1460 + doe / 36524 - doe / 146096) / 365
  let doy : Nat := doe - (365 * yoe + yoe / 4 - yoe / 100)
  let mp : Nat := (5 * doy + 2) / 153
  let d : Nat := doy - (153 * mp + 2) / 5 + 1
  let m : Nat := if mp < 10 then mp + 3 else mp - 9
  let y : Int := era * 400 + yoe + (if m ≤ 2 then 1 else 0)
  (y.toNat, m, d)

/-- Render a civil triple as `YYYY-MM-DD`. -/
def renderISODate (c : Nat × Nat × Nat) : String :=
  pad4 c.1 ++ "-" ++ pad2 c.2.1 ++ "-" ++ pad2 c.2.2

/-- `formatDateWithoutHyphen` from `src/utils/formatter.js`:
`date.toISOString().split('T')[0]` on a `Date` holding the given epoch
minutes (UTC). -/
def formatDateWithoutHyphen (epochMinutes : Int) : String :=
  renderISODate (civilFromDays (Int.fdiv epochMinutes 1440))

/-- `new Date(y, m-1, d)`: epoch minutes of local midnight of the civil
date, in a host whose UTC offset is `tz` minutes east. -/
def newDateLocalMidnight (y m d : Nat) (tz : Int) : Int :=
  daysFromCivil y m d * 1440 - tz

/-- The `targetDate` string the code derives from an 8-digit date key:
local-midnight `Date` rendered back through `toISOString`. -/
def targetDateOf (tz : Int) (date : Nat) : String :=
  formatDateWithoutHyphen
    (newDateLocalMidnight (date / 10000) (date / 100 % 100) (date % 100) tz)

/-- JavaScript `String.prototype.startsWith`. -/
def jsStartsWith (s pre : String) : Bool :=
  List.isPrefixOf pre.toList s.toList

/-- Array index read `arr[i]` on an array of nullable numbers: out of
bounds gives `undefined`, both folded into `none`. -/
def hindex (l : List (Option JNum)) (i : Nat) : Option JNum :=
  (l.get? i).join

/-- `safeValueParameters` from `App.jsx` (lines 560-563), applied to the
selected parameter map. -/
def safeValueParameters (mp : Option JMap) (date : Nat) : Except JsErr (Option JNum) :=
  sentinelCheck (jgetP mp date)

/-- The hourly-average body of `safeValueRadiations` (`App.jsx` lines
578-589): indices of timestamps starting with `targetDate`, average of
the surviving diffuse values, percentage of the 1000 W/m² reference,
rounded to one decimal. -/
def radiationAverage (times : List String) (diff : List (Option JNum))
    (targetDate : String) : Option JNum :=
  let indices :=
    (times.enum.filter (fun p => jsStartsWith p.2 targetDate)).map Prod.fst
  if indices.length = 0 then none
  else
    let values := indices.map (fun i => hindex diff i)
    let validValues := values.reduceOption
    if validValues.length = 0 then none
    else
      let average := (sumJ validValues).divJ (JNum.ofInt validValues.length)
      let percentage := (average.divJ (JNum.ofInt 1000)).mulJ (JNum.ofInt 100)
      some (round1 percentage)

/-- `safeValueRadiations` from `App.jsx` (lines 566-590): daily average
of `diffuse_radiation_instant` as a percentage of 1000 W/m², or the
NASA `ALLSKY_SFC_SW_DWN` fallback when the hourly payload is unusable. -/
def safeValueRadiations (params : ParameterMaps) (rad : Radiations) (tz : Int)
    (date : Nat) : Except JsErr (Option JNum) :=
  match rad with
  | .null => sentinelCheck (jgetP params.ALLSKY_SFC_SW_DWN date)
  | .errorFlag => sentinelCheck (jgetP params.ALLSKY_SFC_SW_DWN date)
  | .noHourly => sentinelCheck (jgetP params.ALLSKY_SFC_SW_DWN date)
  | .withHourly h =>
    match h.diffuse_radiation_instant with
    | none => sentinelCheck (jgetP params.ALLSKY_SFC_SW_DWN date)
    | some diff => .ok (radiationAverage h.time diff (targetDateOf tz date))

/-- One entry of the chart series (`chartData` element). -/
structure DailyMetric where
  date : String
  temp : Option JNum
  humidity : Option JNum
  wind : Option JNum
  solar : Option JNum
deriving DecidableEq

/-- The `currentData` record: each field of the last series entry
defaulted to `0` when `null`/absent (`latest.temp || 0`). -/
structure CurrentData where
  temp : JNum
  humidity : JNum
  wind : JNum
  solar : JNum
deriving DecidableEq

/-- The value passed to `setData`. -/
structure DashboardSnapshot where
  current : CurrentData
  chart : List DailyMetric
  latestDate : Option Nat
deriving DecidableEq

/-- The record built for one kept date (`App.jsx` lines 592-598); the
fields throw in source order. -/
def deriveRecord (params : ParameterMaps) (rad : Radiations) (tz : Int)
    (date : Nat) : Except JsErr DailyMetric := do
  let temp ← safeValueParameters params.T2M date
  let humidity ← safeValueParameters params.RH2M date
  let wind ← safeValueParameters params.WS10M date
  let solar ← safeValueRadiations params rad tz date
  .ok { date := pad2 (date / 100 % 100) ++ "/" ++ pad2 (date % 100),
        temp := temp, humidity := humidity, wind := wind, solar := solar }

/-- `Array.prototype.map` with a callback that can throw: the first
thrown error aborts the whole map. -/
def mapE (f : α → Except ε β) : List α → Except ε (List β)
  | [] => .ok []
  | x :: xs => do
    let y ← f x
    let ys ← mapE f xs
    .ok (y :: ys)

/-- `validDates`: the `T2M` keys whose value is not the `-999` sentinel
(`App.jsx` lines 548-550). -/
def validDatesOf (params : ParameterMaps) : List Nat :=
  (objKeys (params.T2M.getD [])).filter
    (fun d => !jsEqOpt (jgetP params.T2M d) (JNum.ofInt (-999)))

/-- `chartDates = validDates.slice(-7)`. -/
def sliceLast7 (l : List Nat) : List Nat :=
  l.drop (l.length - 7)

/-- `currentData` built from `chartData[chartData.length - 1] || {}`:
each field read off the (possibly absent) last entry, `|| 0` defaulting
`null`/`undefined` to `0`. -/
def currentOf (latest : Option DailyMetric) : CurrentData :=
  { temp := (latest.bind DailyMetric.temp).getD (JNum.ofInt 0),
    humidity := (latest.bind DailyMetric.humidity).getD (JNum.ofInt 0),
    wind := (latest.bind DailyMetric.wind).getD (JNum.ofInt 0),
    solar := (latest.bind DailyMetric.solar).getD (JNum.ofInt 0) }

/-- The normalization logic of the `Dashboard` fetch handler
(`App.jsx` lines 546-617), as a function of the primary payload, the
secondary payload, and the host UTC offset. -/
def normalizeData (payload : PrimaryPayload) (rad : Radiations) (tz : Int) :
    Except JsErr DashboardSnapshot :=
  match payload with
  | .invalidShape => .error (.dataError "Invalid data format received from API")
  | .withParams params =>
    let validDates := validDatesOf params
    if validDates.length = 0 then
      .error (.dataError "No valid data available for this location")
    else do
      let chartDates := sliceLast7 validDates
      let mapped ← mapE (deriveRecord params rad tz) chartDates
      let chartData := mapped.filter (fun item => item.temp != none)
      .ok { current := currentOf chartData.getLast?, chart := chartData,
            latestDate := chartDates.getLast? }

/-- `String.prototype.slice(a, b)` for the in-range case. -/
def jsSlice (s : String) (a b : Nat) : String :=
  String.mk ((s.toList.drop a).take (b - a))

/-- `formatDisplayDate` from `src/utils/formatter.js` (lines 26-34); the
argument is `none` when the caller passes `undefined`. -/
def formatDisplayDate (dateStr : Option String) : String :=
  match dateStr with
  | none => "N/A"
  | some s =>
    if s ≠ "" ∧ s.length = 8 then
      jsSlice s 6 8 ++ "/" ++ jsSlice s 4 6 ++ "/" ++ jsSlice s 0 4
    else "N/A"

/-- Errors escaping `fetchNASAData` (the `catch` block rethrows). -/
inductive FetchErr where
  | netError
  | parseError
deriving DecidableEq

/-- The network environment of one `fetchNASAData` run: for each of the
two requests, `none` models a rejected `fetch` promise, and
`some (ok, body)` a settled HTTP response with its `ok` flag and the
result of parsing its body as JSON. -/
structure FetchEnv (α β : Type) where
  respA : Option (Bool × Except Unit α)
  respB : Option (Bool × Except Unit β)

/-- `fetchNASAData` from `src/utils/fetchNASAData.js` (lines 22-34),
as a function of the network environment: the primary body is parsed
unconditionally, the secondary body only when `resRadiations.ok`; every
rejection inside the `try` block is rethrown by the `catch`. -/
def fetchNASAData (env : FetchEnv α β) : Except FetchErr (α × Option β) :=
  match env.respA with
  | none => .error .netError
  | some resParameters =>
    match env.respB with
    | none => .error .netError
    | some resRadiations =>
      match resParameters.2 with
      | .error _ => .error .parseError
      | .ok parameters =>
        if resRadiations.1 then
          match resRadiations.2 with
          | .error _ => .error .parseError
          | .ok radiations => .ok (parameters, some radiations)
        else .ok (parameters, none)

/-- Network events of one `fetchNASAData` run: dispatch of each request
and settlement (resolution or rejection) of its promise. -/
inductive FEv where
  | sendA
  | recvA
  | sendB
  | recvB
deriving DecidableEq

/-- The ordered network-event trace of one `fetchNASAData` run:
`fetch(urlParameters)` is dispatched and awaited; only if it resolves is
`fetch(urlRadiations)` dispatched and awaited. -/
def fetchTrace (env : FetchEnv α β) : List FEv :=
  match env.respA with
  | none => [.sendA, .recvA]
  | some _ => [.sendA, .recvA, .sendB, .recvB]

/-- The property claimed of the fetch layer: Request B is dispatched
before Request A's response settles (concurrent issue, no ordering
dependency). -/
def dispatchedConcurrently (t : List FEv) : Prop :=
  FEv.sendB ∈ t ∧ t.indexOf FEv.sendB < t.indexOf FEv.recvA

instance (t : List FEv) : Decidable (dispatchedConcurrently t) := by
  unfold dispatchedConcurrently
  infer_instance

/-- A well-shaped concrete primary payload: dates `20240101` and
`20240103` valid, `20240102` carrying the `-999` sentinel. -/
def cParams : ParameterMaps :=
  { T2M := some [(20240101, ⟨41, 2⟩), (20240102, ⟨-999, 1⟩), (20240103, ⟨21, 1⟩)],
    RH2M := some [(20240101, ⟨60, 1⟩), (20240102, ⟨55, 1⟩), (20240103, ⟨50, 1⟩)],
    WS10M := some [(20240101, ⟨3, 1⟩), (20240102, ⟨4, 1⟩), (20240103, ⟨5, 1⟩)],
    ALLSKY_SFC_SW_DWN :=
      some [(20240101, ⟨200, 1⟩), (20240102, ⟨210, 1⟩), (20240103, ⟨220, 1⟩)] }

/-- A concrete primary payload with a single valid date, used where one
kept date must be tracked exactly. -/
def c3Params : ParameterMaps :=
  { T2M := some [(20240101, ⟨20, 1⟩)],
    RH2M := some [(20240101, ⟨50, 1⟩)],
    WS10M := some [(20240101, ⟨3, 1⟩)],
    ALLSKY_SFC_SW_DWN := some [(20240101, ⟨200, 1⟩)] }

/-- A concrete hourly payload: one timestamp on `2024-01-01`, diffuse
radiation 500. -/
def c3Hourly : HourlyData :=
  { time := ["2024-01-01T00:00"],
    diffuse_radiation_instant := some [some ⟨500, 1⟩] }

/-- The spec's hourly scenario: two timestamps on `2024-01-01`, diffuse
radiation 100 and 300. -/
def c4Hourly : HourlyData :=
  { time := ["2024-01-01T00:00", "2024-01-01T12:00"],
    diffuse_radiation_instant := some [some ⟨100, 1⟩, some ⟨300, 1⟩] }

/-- A shaped primary payload whose `T2M` has a valid date but whose
other maps lack that key. -/
def c10Params : ParameterMaps :=
  { T2M := some [(20240101, ⟨20, 1⟩)], RH2M := some [], WS10M := some [],
    ALLSKY_SFC_SW_DWN := some [] }

/-- A network environment where both responses settle successfully. -/
def cEnvAB : FetchEnv Unit Unit :=
  { respA := some (true, .ok ()), respB := some (true, .ok ()) }

/-- A network environment where Request A settles successfully and
Request B's promise rejects. -/
def cEnvBReject : FetchEnv Unit Unit :=
  { respA := some (true, .ok ()), respB := none }

/-- The snapshot produced by `normalizeData` on `cParams` with a `null`
secondary payload. -/
def cSnap1 : DashboardSnapshot :=
  { current := ⟨⟨21, 1⟩, ⟨50, 1⟩, ⟨5, 1⟩, ⟨220, 1⟩⟩,
    chart := [⟨"01/01", some ⟨41, 2⟩, some ⟨60, 1⟩, some ⟨3, 1⟩, some ⟨200, 1⟩⟩,
              ⟨"01/03", some ⟨21, 1⟩, some ⟨50, 1⟩, some ⟨5, 1⟩, some ⟨220, 1⟩⟩],
    latestDate := some 20240103 }

/-- `validDates` of either form of the primary payload. -/
def validDatesOfP : PrimaryPayload → List Nat
  | .invalidShape => []
  | .withParams params => validDatesOf params

/-- A primary payload is well-shaped when, at every valid date, the
three non-temperature maps are present and carry that date-key (the §6
schema shape, restricted to the keys the pipeline reads). -/
def wellShaped (params : ParameterMaps) : Prop :=
  ∀ d ∈ validDatesOf params,
    (jgetP params.RH2M d).isSome ∧ (jgetP params.WS10M d).isSome ∧
      (jgetP params.ALLSKY_SFC_SW_DWN d).isSome

instance (params : ParameterMaps) : Decidable (wellShaped params) := by
  unfold wellShaped
  infer_instance

/-- The secondary-payload shapes that route `safeValueRadiations` to the
NASA fallback: `null`, an `error` body, no `hourly` object, or no
diffuse-radiation array. -/
def takesFallback : Radiations → Prop
  | .null => True
  | .errorFlag => True
  | .noHourly => True
  | .withHourly h => h.diffuse_radiation_instant = none

/-- The ISO `YYYY-MM-DD` form of an 8-digit date key, read directly off
its digits. -/
def isoOfKey (d : Nat) : String :=
  pad4 (d / 10000) ++ "-" ++ pad2 (d / 100 % 100) ++ "-" ++ pad2 (d % 100)

/-- Modelled from the spec: the hourly-average step as §4.2 words it —
indices whose timestamp prefix matches the target date, surviving
diffuse values averaged, `null` when none remain (a single emptiness
check), then percentage of the 1000 W/m² reference, rounded. -/
def specAverage (times : List String) (diff : List (Option JNum))
    (targetDate : String) : Option JNum :=
  let idxs :=
    (times.enum.filter (fun p => jsStartsWith p.2 targetDate)).map Prod.fst
  let vals := (idxs.map (fun i => hindex diff i)).reduceOption
  if vals.length = 0 then none
  else
    some (round1 ((((sumJ vals).divJ (JNum.ofInt vals.length)).divJ
      (JNum.ofInt 1000)).mulJ (JNum.ofInt 100)))

/-- Modelled from the spec: `solarPercent` of a date-key on the primary
(hourly) path, with the date's own ISO form as the matched prefix. -/
def solarPercentSpec (times : List String) (diff : List (Option JNum))
    (d : Nat) : Option JNum :=
  specAverage times diff (isoOfKey d)

theorem ok_bind (a : α) (f : α → Except ε β) :
    (Except.ok a >>= f) = f a := rfl

theorem error_bind (e : ε) (f : α → Except ε β) :
    ((Except.error e : Except ε α) >>= f) = .error e := rfl

theorem mapE_nil (f : α → Except ε β) : mapE f [] = .ok [] := rfl

theorem mapE_cons (f : α → Except ε β) (x : α) (xs : List α) :
    mapE f (x :: xs) =
      (f x >>= fun y => mapE f xs >>= fun ys => .ok (y :: ys)) := rfl

theorem mapE_ok_length (f : α → Except ε β) (l : List α) (ys : List β)
    (h : mapE f l = .ok ys) : ys.length = l.length := by
  induction l generalizing ys with
  | nil =>
    rw [mapE_nil] at h
    cases h
    rfl
  | cons x xs ih =>
    rw [mapE_cons] at h
    cases hx : f x with
    | error e => rw [hx, error_bind] at h; cases h
    | ok y =>
      rw [hx, ok_bind] at h
      cases hxs : mapE f xs with
      | error e => rw [hxs, error_bind] at h; cases h
      | ok zs =>
        rw [hxs, ok_bind] at h
        cases h
        simp [ih zs hxs]

theorem mapE_ok_mem (f : α → Except ε β) (l : List α) (ys : List β)
    (h : mapE f l = .ok ys) (y : β) (hy : y ∈ ys) :
    ∃ x ∈ l, f x = .ok y := by
  induction l generalizing ys with
  | nil =>
    rw [mapE_nil] at h
    cases h
    cases hy
  | cons x xs ih =>
    rw [mapE_cons] at h
    cases hx : f x with
    | error e => rw [hx, error_bind] at h; cases h
    | ok z =>
      rw [hx, ok_bind] at h
      cases hxs : mapE f xs with
      | error e => rw [hxs, error_bind] at h; cases h
      | ok zs =>
        rw [hxs, ok_bind] at h
        cases h
        rcases List.mem_cons.mp hy with hz | hz
        · exact ⟨x, List.mem_cons_self x xs, hz ▸ hx⟩
        · obtain ⟨w, hw, hfw⟩ := ih zs hxs hz
          exact ⟨w, List.mem_cons_of_mem x hw, hfw⟩

theorem mapE_ok_of_forall (f : α → Except ε β) (l : List α)
    (h : ∀ x ∈ l, ∃ y, f x = .ok y) : ∃ ys, mapE f l = .ok ys := by
  induction l with
  | nil => exact ⟨[], rfl⟩
  | cons x xs ih =>
    obtain ⟨y, hy⟩ := h x (List.mem_cons_self x xs)
    obtain ⟨ys, hys⟩ := ih (fun w hw => h w (List.mem_cons_of_mem x hw))
    exact ⟨y :: ys, by rw [mapE_cons, hy, ok_bind, hys, ok_bind]⟩

theorem mapE_error (f : α → Except ε β) (l : List α) (e : ε)
    (h : mapE f l = .error e) : ∃ x ∈ l, f x = .error e := by
  induction l with
  | nil => rw [mapE_nil] at h; cases h
  | cons x xs ih =>
    rw [mapE_cons] at h
    cases hx : f x with
    | error e2 =>
      rw [hx, error_bind] at h
      cases h
      exact ⟨x, List.mem_cons_self x xs, hx⟩
    | ok y =>
      rw [hx, ok_bind] at h
      cases hxs : mapE f xs with
      | error e2 =>
        rw [hxs, error_bind] at h
        cases h
        obtain ⟨w, hw, hfw⟩ := ih hxs
        exact ⟨w, List.mem_cons_of_mem x hw, hfw⟩
      | ok zs => rw [hxs, ok_bind] at h; cases h

theorem mapE_ok_getLast (f : α → Except ε β) (l : List α) (ys : List β)
    (h : mapE f l = .ok ys) (x : α) (hx : l.getLast? = some x) :
    ∃ y, ys.getLast? = some y ∧ f x = .ok y := by
  induction l generalizing ys with
  | nil => cases hx
  | cons a xs ih =>
    rw [mapE_cons] at h
    cases ha : f a with
    | error e => rw [ha, error_bind] at h; cases h
    | ok y =>
      rw [ha, ok_bind] at h
      cases hxs : mapE f xs with
      | error e => rw [hxs, error_bind] at h; cases h
      | ok zs =>
        rw [hxs, ok_bind] at h
        cases h
        cases xs with
        | nil =>
          rw [mapE_nil] at hxs
          cases hxs
          cases hx
          exact ⟨y, rfl, ha⟩
        | cons b bs =>
          have hzs : zs ≠ [] := by
            intro hz
            have := mapE_ok_length f (b :: bs) zs hxs
            rw [hz] at this
            cases this
          rw [List.getLast?_cons_cons] at hx
          obtain ⟨w, hw, hfw⟩ := ih zs hxs hx
          refine ⟨w, ?_, hfw⟩
          cases zs with
          | nil => exact absurd rfl hzs
          | cons c cs => rw [List.getLast?_cons_cons]; exact hw

theorem mapE_congr (f g : α → Except ε β) (l : List α)
    (h : ∀ x ∈ l, f x = g x) : mapE f l = mapE g l := by
  induction l with
  | nil => rfl
  | cons x xs ih =>
    rw [mapE_cons, mapE_cons, h x (List.mem_cons_self x xs),
      ih (fun w hw => h w (List.mem_cons_of_mem x hw))]

theorem jget_isSome (m : JMap) (k : Nat) (h : k ∈ m.map Prod.fst) :
    (jget m k).isSome := by
  obtain ⟨e, he, hk⟩ := List.mem_map.mp h
  have hf : (m.reverse.find? (fun x => x.1 == k)).isSome := by
    rw [List.find?_isSome]
    exact ⟨e, List.mem_reverse.mpr he, by simp [hk]⟩
  unfold jget
  cases hfe : m.reverse.find? (fun x => x.1 == k) with
  | none => rw [hfe] at hf; cases hf
  | some e2 => rfl

theorem mem_validDatesOf (params : ParameterMaps) (d : Nat)
    (h : d ∈ validDatesOf params) :
    ∃ v, jgetP params.T2M d = some v ∧
      jsEqNum v (JNum.ofInt (-999)) = false := by
  unfold validDatesOf at h
  rw [List.mem_filter] at h
  obtain ⟨hmem, hcond⟩ := h
  cases hT : params.T2M with
  | none =>
    rw [hT] at hmem
    have hempty : objKeys ((none : Option JMap).getD []) = [] := rfl
    rw [hempty] at hmem
    cases hmem
  | some ml =>
    rw [hT] at hmem hcond
    have hkeys : d ∈ ml.map Prod.fst := by
      unfold objKeys at hmem
      exact List.mem_dedup.mp ((List.perm_insertionSort _ _).mem_iff.mp hmem)
    obtain ⟨v, hv⟩ := Option.isSome_iff_exists.mp (jget_isSome ml d hkeys)
    have hj : jgetP (some ml) d = jget ml d := rfl
    have hfalse : jsEqOpt (jgetP (some ml) d) (JNum.ofInt (-999)) = false := by
      cases hb : jsEqOpt (jgetP (some ml) d) (JNum.ofInt (-999)) with
      | false => rfl
      | true => rw [hb] at hcond; cases hcond
    rw [hj, hv] at hfalse
    exact ⟨v, hv, hfalse⟩

theorem sentinelCheck_some_ne (v : JNum)
    (hne : jsEqNum v (JNum.ofInt (-999)) = false) :
    sentinelCheck (some v) = .ok (some (round1 v)) := by
  simp [sentinelCheck, hne]

theorem sentinelCheck_error (v : Option JNum) (e : JsErr)
    (h : sentinelCheck v = .error e) : e = .typeError := by
  cases v with
  | none => cases h; rfl
  | some q =>
    simp only [sentinelCheck] at h
    cases hq : jsEqNum q (JNum.ofInt (-999)) <;> rw [hq] at h <;> simp at h

theorem safeValueRadiations_error (params : ParameterMaps) (rad : Radiations)
    (tz : Int) (d : Nat) (e : JsErr)
    (h : safeValueRadiations params rad tz d = .error e) : e = .typeError := by
  cases rad with
  | null => exact sentinelCheck_error _ _ h
  | errorFlag => exact sentinelCheck_error _ _ h
  | noHourly => exact sentinelCheck_error _ _ h
  | withHourly hd =>
    simp only [safeValueRadiations] at h
    cases hdiff : hd.diffuse_radiation_instant with
    | none =>
      rw [hdiff] at h
      exact sentinelCheck_error _ _ h
    | some diff =>
      rw [hdiff] at h
      simp at h

theorem deriveRecord_ok_temp (params : ParameterMaps) (rad : Radiations)
    (tz : Int) (d : Nat) (r : DailyMetric)
    (h : deriveRecord params rad tz d = .ok r) :
    safeValueParameters params.T2M d = .ok r.temp := by
  unfold deriveRecord at h
  cases h1 : safeValueParameters params.T2M d with
  | error e => rw [h1, error_bind] at h; cases h
  | ok t =>
    rw [h1, ok_bind] at h
    cases h2 : safeValueParameters params.RH2M d with
    | error e => rw [h2, error_bind] at h; cases h
    | ok hu =>
      rw [h2, ok_bind] at h
      cases h3 : safeValueParameters params.WS10M d with
      | error e => rw [h3, error_bind] at h; cases h
      | ok w =>
        rw [h3, ok_bind] at h
        cases h4 : safeValueRadiations params rad tz d with
        | error e => rw [h4, error_bind] at h; cases h
        | ok s =>
          rw [h4, ok_bind] at h
          cases h
          rfl

theorem deriveRecord_error (params : ParameterMaps) (rad : Radiations)
    (tz : Int) (d : Nat) (e : JsErr)
    (h : deriveRecord params rad tz d = .error e) : e = .typeError := by
  unfold deriveRecord at h
  cases h1 : safeValueParameters params.T2M d with
  | error e1 =>
    rw [h1, error_bind] at h
    cases h
    exact sentinelCheck_error _ _ h1
  | ok t =>
    rw [h1, ok_bind] at h
    cases h2 : safeValueParameters params.RH2M d with
    | error e2 =>
      rw [h2, error_bind] at h
      cases h
      exact sentinelCheck_error _ _ h2
    | ok hu =>
      rw [h2, ok_bind] at h
      cases h3 : safeValueParameters params.WS10M d with
      | error e3 =>
        rw [h3, error_bind] at h
        cases h
        exact sentinelCheck_error _ _ h3
      | ok w =>
        rw [h3, ok_bind] at h
        cases h4 : safeValueRadiations params rad tz d with
        | error e4 =>
          rw [h4, error_bind] at h
          cases h
          exact safeValueRadiations_error _ _ _ _ _ h4
        | ok s => rw [h4, ok_bind] at h; cases h

theorem deriveRecord_temp_ne_none (params : ParameterMaps) (rad : Radiations)
    (tz : Int) (d : Nat) (r : DailyMetric) (hd : d ∈ validDatesOf params)
    (h : deriveRecord params rad tz d = .ok r) : r.temp ≠ none := by
  obtain ⟨v, hv, hne⟩ := mem_validDatesOf params d hd
  have ht := deriveRecord_ok_temp params rad tz d r h
  unfold safeValueParameters at ht
  rw [hv, sentinelCheck_some_ne v hne] at ht
  injection ht with h2
  rw [← h2]
  simp

theorem sliceLast7_length (l : List Nat) :
    (sliceLast7 l).length = min l.length 7 := by
  unfold sliceLast7
  rw [List.length_drop]
  omega

theorem normalizeData_ok_inv (params : ParameterMaps) (rad : Radiations)
    (tz : Int) (snap : DashboardSnapshot)
    (h : normalizeData (.withParams params) rad tz = .ok snap) :
    (validDatesOf params).length ≠ 0 ∧
    mapE (deriveRecord params rad tz) (sliceLast7 (validDatesOf params)) =
      .ok snap.chart ∧
    snap.latestDate = (sliceLast7 (validDatesOf params)).getLast? ∧
    snap.current = currentOf snap.chart.getLast? := by
  unfold normalizeData at h
  by_cases hlen : (validDatesOf params).length = 0
  · simp [hlen] at h
  · simp only [hlen, if_false] at h
    cases hm : mapE (deriveRecord params rad tz) (sliceLast7 (validDatesOf params)) with
    | error e => rw [hm, error_bind] at h; cases h
    | ok mapped =>
      rw [hm, ok_bind] at h
      have hfil : mapped.filter (fun item => item.temp != none) = mapped := by
        rw [List.filter_eq_self]
        intro r hr
        obtain ⟨x, hx, hfx⟩ := mapE_ok_mem _ _ _ hm r hr
        have hxv : x ∈ validDatesOf params :=
          List.mem_of_mem_drop hx
        have := deriveRecord_temp_ne_none params rad tz x r hxv hfx
        simpa using this
      rw [hfil] at h
      cases h
      exact ⟨hlen, rfl, rfl, rfl⟩

theorem sentinelCheck_some_isOk (w : JNum) :
    ∃ o, sentinelCheck (some w) = .ok o := by
  simp only [sentinelCheck]
  cases hq : jsEqNum w (JNum.ofInt (-999))
  · exact ⟨some (round1 w), by simp [hq]⟩
  · exact ⟨none, by simp [hq]⟩

theorem radiationAverage_eq_specAverage (times : List String)
    (diff : List (Option JNum)) (t : String) :
    radiationAverage times diff t = specAverage times diff t := by
  unfold radiationAverage specAverage
  by_cases h0 :
      ((times.enum.filter (fun p => jsStartsWith p.2 t)).map Prod.fst).length = 0
  · have hnil : (times.enum.filter (fun p => jsStartsWith p.2 t)).map Prod.fst = [] :=
      List.length_eq_zero.mp h0
    rw [hnil]
    simp
  · simp only [h0, if_false]

/-- C1: on every successful normalization, the series' length is the
valid-date count when that count is at most 7, is at most 7 when the
count exceeds 7, and the series is exactly the records derived, in
order, from the chronologically last 7 valid dates
(`validDates.slice(-7)`). -/
theorem series_keeps_last7_valid_dates (params : ParameterMaps)
    (rad : Radiations) (tz : Int) (snap : DashboardSnapshot)
    (h : normalizeData (.withParams params) rad tz = .ok snap) :
    snap.chart.length = min (validDatesOf params).length 7 ∧
    ((validDatesOf params).length ≤ 7 →
      snap.chart.length = (validDatesOf params).length) ∧
    (7 < (validDatesOf params).length → snap.chart.length ≤ 7) ∧
    mapE (deriveRecord params rad tz) (sliceLast7 (validDatesOf params)) =
      .ok snap.chart := by
  obtain ⟨hlen, hmap, hld, hcur⟩ := normalizeData_ok_inv params rad tz snap h
  have hl := mapE_ok_length _ _ _ hmap
  rw [sliceLast7_length] at hl
  exact ⟨hl, fun hle => by omega, fun hgt => by omega, hmap⟩

/-- Witness for C1: the two-valid-date payload `cParams` yields a
two-entry series equal to the mapped `slice(-7)` records. -/
theorem series_keeps_last7_valid_dates_witness :
    cSnap1.chart.length = min (validDatesOf cParams).length 7 ∧
    ((validDatesOf cParams).length ≤ 7 →
      cSnap1.chart.length = (validDatesOf cParams).length) ∧
    (7 < (validDatesOf cParams).length → cSnap1.chart.length ≤ 7) ∧
    mapE (deriveRecord cParams .null 0) (sliceLast7 (validDatesOf cParams)) =
      .ok cSnap1.chart :=
  series_keeps_last7_valid_dates cParams .null 0 cSnap1 (by decide)

/-- C9: on every successful normalization the step-4 temperature filter
removes nothing (the series is the unfiltered mapped records), the
series is nonempty, every kept record's temperature is non-null, and
`latestDate` is the date-key whose derived record is the series' last
entry, from which `current` is built. -/
theorem temperature_filter_vacuous (params : ParameterMaps)
    (rad : Radiations) (tz : Int) (snap : DashboardSnapshot)
    (h : normalizeData (.withParams params) rad tz = .ok snap) :
    mapE (deriveRecord params rad tz) (sliceLast7 (validDatesOf params)) =
      .ok snap.chart ∧
    snap.chart ≠ [] ∧
    (∀ r ∈ snap.chart, r.temp ≠ none) ∧
    ∃ d r, snap.latestDate = some d ∧ snap.chart.getLast? = some r ∧
      deriveRecord params rad tz d = .ok r ∧
      snap.current = currentOf (some r) := by
  obtain ⟨hlen, hmap, hld, hcur⟩ := normalizeData_ok_inv params rad tz snap h
  have hlchart := mapE_ok_length _ _ _ hmap
  rw [sliceLast7_length] at hlchart
  have hne : snap.chart ≠ [] := by
    intro hnil
    rw [hnil] at hlchart
    simp at hlchart
    omega
  have hmem : ∀ r ∈ snap.chart, r.temp ≠ none := by
    intro r hr
    obtain ⟨x, hx, hfx⟩ := mapE_ok_mem _ _ _ hmap r hr
    exact deriveRecord_temp_ne_none params rad tz x r (List.mem_of_mem_drop hx) hfx
  have hslne : (sliceLast7 (validDatesOf params)).getLast? ≠ none := by
    intro hnone
    have h0 := List.getLast?_eq_none_iff.mp hnone
    have := sliceLast7_length (validDatesOf params)
    rw [h0] at this
    simp at this
    omega
  obtain ⟨dl, hdl⟩ := Option.ne_none_iff_exists'.mp hslne
  obtain ⟨rl, hrl, hfl⟩ := mapE_ok_getLast _ _ _ hmap dl hdl
  refine ⟨hmap, hne, hmem, dl, rl, ?_, hrl, hfl, ?_⟩
  · rw [hld, hdl]
  · rw [hcur, hrl]

/-- Witness for C9: instantiated at `cParams` with a `null` secondary
payload. -/
theorem temperature_filter_vacuous_witness :
    mapE (deriveRecord cParams .null 0) (sliceLast7 (validDatesOf cParams)) =
      .ok cSnap1.chart ∧
    cSnap1.chart ≠ [] ∧
    (∀ r ∈ cSnap1.chart, r.temp ≠ none) ∧
    ∃ d r, cSnap1.latestDate = some d ∧ cSnap1.chart.getLast? = some r ∧
      deriveRecord cParams .null 0 d = .ok r ∧
      cSnap1.current = currentOf (some r) :=
  temperature_filter_vacuous cParams .null 0 cSnap1 (by decide)

/-- C2: normalization fails with a `DataError` exactly when the primary
payload lacks `properties.parameter` or has zero valid dates; and every
well-shaped payload with at least one valid date normalizes to a
snapshot. -/
theorem dataError_characterization (payload : PrimaryPayload)
    (rad : Radiations) (tz : Int) :
    ((∃ msg, normalizeData payload rad tz = .error (.dataError msg)) ↔
      (payload = .invalidShape ∨ validDatesOfP payload = [])) ∧
    (∀ params, payload = .withParams params → wellShaped params →
      validDatesOf params ≠ [] →
      ∃ snap, normalizeData payload rad tz = .ok snap) := by
  constructor
  · constructor
    · rintro ⟨msg, hmsg⟩
      cases payload with
      | invalidShape => exact Or.inl rfl
      | withParams params =>
        right
        show validDatesOf params = []
        by_cases hlen : (validDatesOf params).length = 0
        · exact List.length_eq_zero.mp hlen
        · exfalso
          unfold normalizeData at hmsg
          simp only [hlen, if_false] at hmsg
          cases hm : mapE (deriveRecord params rad tz)
              (sliceLast7 (validDatesOf params)) with
          | error e =>
            rw [hm, error_bind] at hmsg
            injection hmsg with he
            obtain ⟨x, hx, hfx⟩ := mapE_error _ _ _ hm
            have hte := deriveRecord_error _ _ _ _ _ hfx
            rw [he] at hte
            cases hte
          | ok mapped =>
            rw [hm, ok_bind] at hmsg
            cases hmsg
    · rintro (h1 | h2)
      · subst h1
        exact ⟨"Invalid data format received from API", rfl⟩
      · cases payload with
        | invalidShape => exact ⟨"Invalid data format received from API", rfl⟩
        | withParams params =>
          have hval : validDatesOf params = [] := h2
          refine ⟨"No valid data available for this location", ?_⟩
          unfold normalizeData
          simp [hval]
  · rintro params rfl hws hne
    have hforall : ∀ d ∈ sliceLast7 (validDatesOf params),
        ∃ r, deriveRecord params rad tz d = .ok r := by
      intro d hd
      have hdv : d ∈ validDatesOf params := List.mem_of_mem_drop hd
      obtain ⟨v, hv, hvne⟩ := mem_validDatesOf params d hdv
      obtain ⟨hrh, hws10, hall⟩ := hws d hdv
      obtain ⟨vr, hvr⟩ := Option.isSome_iff_exists.mp hrh
      obtain ⟨vw, hvw⟩ := Option.isSome_iff_exists.mp hws10
      obtain ⟨va, hva⟩ := Option.isSome_iff_exists.mp hall
      have h1 : safeValueParameters params.T2M d = .ok (some (round1 v)) := by
        unfold safeValueParameters
        rw [hv]
        exact sentinelCheck_some_ne v hvne
      obtain ⟨o2, ho2⟩ : ∃ o, safeValueParameters params.RH2M d = .ok o := by
        unfold safeValueParameters
        rw [hvr]
        exact sentinelCheck_some_isOk vr
      obtain ⟨o3, ho3⟩ : ∃ o, safeValueParameters params.WS10M d = .ok o := by
        unfold safeValueParameters
        rw [hvw]
        exact sentinelCheck_some_isOk vw
      obtain ⟨o4, ho4⟩ : ∃ o, safeValueRadiations params rad tz d = .ok o := by
        cases rad with
        | null =>
          show ∃ o, sentinelCheck (jgetP params.ALLSKY_SFC_SW_DWN d) = .ok o
          rw [hva]
          exact sentinelCheck_some_isOk va
        | errorFlag =>
          show ∃ o, sentinelCheck (jgetP params.ALLSKY_SFC_SW_DWN d) = .ok o
          rw [hva]
          exact sentinelCheck_some_isOk va
        | noHourly =>
          show ∃ o, sentinelCheck (jgetP params.ALLSKY_SFC_SW_DWN d) = .ok o
          rw [hva]
          exact sentinelCheck_some_isOk va
        | withHourly hd2 =>
          simp only [safeValueRadiations]
          cases hdiff : hd2.diffuse_radiation_instant with
          | none =>
            show ∃ o, sentinelCheck (jgetP params.ALLSKY_SFC_SW_DWN d) = .ok o
            rw [hva]
            exact sentinelCheck_some_isOk va
          | some diff => exact ⟨_, rfl⟩
      have hrec : deriveRecord params rad tz d =
          .ok { date := pad2 (d / 100 % 100) ++ "/" ++ pad2 (d % 100),
                temp := some (round1 v), humidity := o2, wind := o3,
                solar := o4 } := by
        unfold deriveRecord
        rw [h1, ok_bind, ho2, ok_bind, ho3, ok_bind, ho4, ok_bind]
      exact ⟨_, hrec⟩
    obtain ⟨ys, hys⟩ := mapE_ok_of_forall _ _ hforall
    have hlen : ¬((validDatesOf params).length = 0) := by
      intro h0
      exact hne (List.length_eq_zero.mp h0)
    have hok : normalizeData (.withParams params) rad tz =
        .ok { current :=
                currentOf ((ys.filter (fun item => item.temp != none)).getLast?),
              chart := ys.filter (fun item => item.temp != none),
              latestDate := (sliceLast7 (validDatesOf params)).getLast? } := by
      unfold normalizeData
      simp only [hlen, if_false]
      rw [hys, ok_bind]
    exact ⟨_, hok⟩

/-- Witness for C2: the well-shaped payload `cParams` with a `null`
secondary payload normalizes successfully. -/
theorem dataError_characterization_witness :
    ∃ snap, normalizeData (.withParams cParams) .null 0 = .ok snap :=
  (dataError_characterization (.withParams cParams) .null 0).2 cParams rfl
    (by decide) (by decide)

/-- C5: whenever the secondary payload is `null`, an `error` body, has
no `hourly` object, or lacks the diffuse-radiation array, `solarPercent`
is the `ALLSKY_SFC_SW_DWN` value at the date-key — `null` when it is the
`-999` sentinel, otherwise the raw value rounded to one decimal, with no
`/1000` scaling — and the `error`-body payload behaves exactly as
`null`. -/
theorem solar_fallback_reads_allsky (params : ParameterMaps)
    (rad : Radiations) (tz : Int) (d : Nat) (hrad : takesFallback rad) :
    (∀ v, jgetP params.ALLSKY_SFC_SW_DWN d = some v →
      safeValueRadiations params rad tz d =
        .ok (if jsEqNum v (JNum.ofInt (-999)) then none
             else some (round1 v))) ∧
    safeValueRadiations params .errorFlag tz d =
      safeValueRadiations params .null tz d := by
  have hfall : safeValueRadiations params rad tz d =
      sentinelCheck (jgetP params.ALLSKY_SFC_SW_DWN d) := by
    cases rad with
    | null => rfl
    | errorFlag => rfl
    | noHourly => rfl
    | withHourly h =>
      simp only [safeValueRadiations]
      rw [show h.diffuse_radiation_instant = none from hrad]
  refine ⟨?_, rfl⟩
  intro v hv
  rw [hfall, hv]
  simp only [sentinelCheck]
  cases hq : jsEqNum v (JNum.ofInt (-999)) <;> simp [hq]

/-- Witness for C5: at `cParams` and date `20240101`, the fallback
returns the raw `ALLSKY_SFC_SW_DWN` value 200. -/
theorem solar_fallback_reads_allsky_witness :
    safeValueRadiations cParams .null 0 20240101 =
      .ok (if jsEqNum ⟨200, 1⟩ (JNum.ofInt (-999)) then none
           else some (round1 ⟨200, 1⟩)) :=
  (solar_fallback_reads_allsky cParams .null 0 20240101 trivial).1
    ⟨200, 1⟩ (by decide)

/-- C10: the per-date derivation is not total on shaped payloads: for
the payload `c10Params`, whose `T2M` has the valid date `20240101` but
whose `RH2M` lacks that key, normalization throws a `TypeError`
(`undefined.toFixed`) for every host offset, instead of producing a
null field. -/
theorem derivation_not_total_missing_key (tz : Int) :
    normalizeData (.withParams c10Params) .null tz = .error .typeError := rfl

/-- Counterexample for C6: the 8-character non-numeric key `"abcdefgh"`
is not mapped to `"N/A"` — the formatter slices it blindly. -/
theorem formatDisplayDate_eight_nonnumeric :
    formatDisplayDate (some "abcdefgh") ≠ "N/A" ∧
    formatDisplayDate (some "abcdefgh") = "gh/ef/abcd" := by
  exact ⟨by decide, by decide⟩

/-- C6 (amended): `"20240115"` formats to `"15/01/2024"`; an absent,
empty, or wrong-length input yields `"N/A"`; but every 8-character
string — numeric or not — is sliced positionally. -/
theorem formatDisplayDate_length_gate :
    formatDisplayDate (some "20240115") = "15/01/2024" ∧
    formatDisplayDate none = "N/A" ∧
    formatDisplayDate (some "") = "N/A" ∧
    (∀ s : String, s.length ≠ 8 → formatDisplayDate (some s) = "N/A") ∧
    (∀ s : String, s.length = 8 →
      formatDisplayDate (some s) =
        jsSlice s 6 8 ++ "/" ++ jsSlice s 4 6 ++ "/" ++ jsSlice s 0 4) := by
  refine ⟨by decide, rfl, by decide, ?_, ?_⟩
  · intro s hs
    simp only [formatDisplayDate]
    rw [if_neg (fun hc => hs hc.2)]
  · intro s hs
    have hne : s ≠ "" := by
      intro he
      rw [he] at hs
      exact absurd hs (by decide)
    simp only [formatDisplayDate]
    rw [if_pos ⟨hne, hs⟩]

/-- Witness for C6 (amended): a 3-character key yields `"N/A"`. -/
theorem formatDisplayDate_length_gate_witness :
    formatDisplayDate (some "abc") = "N/A" :=
  formatDisplayDate_length_gate.2.2.2.1 "abc" (by decide)

/-- Counterexample for C7: in the environment where both responses
settle, Request B is not dispatched before Request A's response
completes. -/
theorem fetch_not_concurrent_at_env :
    ¬ dispatchedConcurrently (fetchTrace cEnvAB) := by decide

/-- C7 (amended): the two requests are issued sequentially: every trace
is either `[sendA, recvA]` (A's promise rejected — B never dispatched)
or `[sendA, recvA, sendB, recvB]` (B dispatched only after A settled);
in no trace is B dispatched before A's response completes. -/
theorem fetch_requests_sequential (env : FetchEnv α β) :
    (fetchTrace env = [.sendA, .recvA] ∨
      fetchTrace env = [.sendA, .recvA, .sendB, .recvB]) ∧
    ¬ dispatchedConcurrently (fetchTrace env) := by
  have hsh : fetchTrace env = [.sendA, .recvA] ∨
      fetchTrace env = [.sendA, .recvA, .sendB, .recvB] := by
    unfold fetchTrace
    cases env.respA <;> simp
  refine ⟨hsh, ?_⟩
  rcases hsh with h | h <;> rw [h] <;> decide

/-- Counterexample for C8: when Request B's promise rejects, the fetch
layer raises the error instead of returning `null` for B's result. -/
theorem fetchB_reject_raises :
    fetchNASAData cEnvBReject = .error .netError ∧
    ∀ b : Option Unit, fetchNASAData cEnvBReject ≠ .ok ((), b) := by
  refine ⟨rfl, fun b => ?_⟩
  rw [show fetchNASAData cEnvBReject = .error .netError from rfl]
  simp

/-- C8 (amended): Request A's body is parsed unconditionally and its
network or parse failure propagates; Request B's body is parsed only on
an `ok` response and a settled non-`ok` response gives `null` without an
error — but a rejected Request B promise, or a parse failure of its
`ok` body, also propagates as an error. -/
theorem fetch_error_propagation (env : FetchEnv α β) :
    (env.respA = none → fetchNASAData env = .error .netError) ∧
    (env.respA ≠ none → env.respB = none →
      fetchNASAData env = .error .netError) ∧
    (∀ okA pB a, env.respA = some (okA, .ok a) → env.respB = some (false, pB) →
      fetchNASAData env = .ok (a, none)) ∧
    (∀ okA rB, env.respA = some (okA, .error ()) → env.respB = some rB →
      fetchNASAData env = .error .parseError) ∧
    (∀ okA a b, env.respA = some (okA, .ok a) → env.respB = some (true, .ok b) →
      fetchNASAData env = .ok (a, some b)) ∧
    (∀ okA a, env.respA = some (okA, .ok a) → env.respB = some (true, .error ()) →
      fetchNASAData env = .error .parseError) := by
  obtain ⟨ra, rb⟩ := env
  refine ⟨?_, ?_, ?_, ?_, ?_, ?_⟩
  · intro h
    cases h
    rfl
  · intro hA hB
    cases hB
    cases ra with
    | none => exact absurd rfl hA
    | some p => rfl
  · intro okA pB a hA hB
    cases hA
    cases hB
    rfl
  · intro okA rB hA hB
    cases hA
    cases hB
    rfl
  · intro okA a b hA hB
    cases hA
    cases hB
    rfl
  · intro okA a hA hB
    cases hA
    cases hB
    rfl

/-- Witness for C8 (amended): a settled non-`ok` Request B yields the
parsed A body with a `null` B result and no error. -/
theorem fetch_error_propagation_witness :
    fetchNASAData
        ({ respA := some (true, .ok ()), respB := some (false, .ok ()) } :
          FetchEnv Unit Unit) = .ok ((), none) :=
  (fetch_error_propagation _).2.2.1 true (.ok ()) () rfl rfl

/-- Counterexample for C3: the same two payloads normalize differently
under host UTC offsets `0` and `+60` — the hourly matching day shifts
with the host timezone. -/
theorem normalizeData_depends_on_host_offset :
    normalizeData (.withParams c3Params) (.withHourly c3Hourly) 0 ≠
      normalizeData (.withParams c3Params) (.withHourly c3Hourly) 60 := by
  decide

/-- C3 (amended): normalization is a deterministic function of its two
payloads and the host UTC offset, and depends on the offset only
through the whole-day shift `floor(-offset / 1440)`; in particular any
two offsets with the same shift (e.g. any two in `(-24h, 0]`) give
identical snapshots, while positive offsets shift the hourly matching
to the previous day. -/
theorem normalizeData_deterministic_per_offset (payload : PrimaryPayload)
    (rad : Radiations) (tz1 tz2 : Int)
    (h : Int.fdiv (-tz1) 1440 = Int.fdiv (-tz2) 1440) :
    normalizeData payload rad tz1 = normalizeData payload rad tz2 := by
  have htd : ∀ d, targetDateOf tz1 d = targetDateOf tz2 d := by
    intro d
    unfold targetDateOf formatDateWithoutHyphen newDateLocalMidnight
    have key : ∀ tz : Int,
        Int.fdiv
          (daysFromCivil (d / 10000) (d / 100 % 100) (d % 100) * 1440 - tz)
          1440 =
        daysFromCivil (d / 10000) (d / 100 % 100) (d % 100) +
          Int.fdiv (-tz) 1440 := by
      intro tz
      rw [Int.fdiv_eq_ediv _ (by norm_num), Int.fdiv_eq_ediv _ (by norm_num)]
      omega
    rw [key tz1, key tz2, h]
  cases payload with
  | invalidShape => rfl
  | withParams params =>
    have hsv : ∀ d, safeValueRadiations params rad tz1 d =
        safeValueRadiations params rad tz2 d := by
      intro d
      cases rad with
      | null => rfl
      | errorFlag => rfl
      | noHourly => rfl
      | withHourly hd =>
        simp only [safeValueRadiations]
        cases hdiff : hd.diffuse_radiation_instant with
        | none => rfl
        | some diff => rw [htd d]
    have hdr : ∀ d, deriveRecord params rad tz1 d =
        deriveRecord params rad tz2 d := by
      intro d
      unfold deriveRecord
      rw [hsv d]
    unfold normalizeData
    by_cases hlen : (validDatesOf params).length = 0
    · simp [hlen]
    · simp only [hlen, if_false]
      rw [mapE_congr _ _ _ (fun x _ => hdr x)]

/-- Witness for C3 (amended): offsets `0` and `-300` (UTC-5) give the
same whole-day shift, hence identical snapshots. -/
theorem normalizeData_deterministic_per_offset_witness :
    normalizeData (.withParams c3Params) (.withHourly c3Hourly) 0 =
      normalizeData (.withParams c3Params) (.withHourly c3Hourly) (-300) :=
  normalizeData_deterministic_per_offset (.withParams c3Params)
    (.withHourly c3Hourly) 0 (-300) (by decide)

/-- Counterexample for C4: under host UTC offset `+60`, the spec's
scenario (`time = 2024-01-01T00:00/T12:00`, diffuse `[100, 300]`, date
`20240101`) yields `null`, not `20.0` — the matched day is shifted. -/
theorem solar_scenario_positive_offset :
    safeValueRadiations c3Params (.withHourly c4Hourly) 60 20240101 =
      .ok none ∧
    safeValueRadiations c3Params (.withHourly c4Hourly) 60 20240101 ≠
      .ok (some ⟨20, 1⟩) := by
  exact ⟨by decide, by decide⟩

/-- C4 (amended): with the hourly payload present and carrying the
diffuse array, `solarPercent` follows the spec's prefix-match /
average / `(x/1000)*100` / round-to-1-decimal computation with the
date's own ISO form as prefix, provided the local-midnight conversion
maps the date-key to its own ISO form (which holds exactly when the
host UTC offset lies in `(-24h, 0]`); in particular the spec scenario
yields `20.0` for every offset in `(-24h, 0]`. -/
theorem solar_primary_refines_spec (params : ParameterMaps)
    (h : HourlyData) (diff : List (Option JNum)) (tz : Int) (d : Nat)
    (hd : h.diffuse_radiation_instant = some diff)
    (htd : targetDateOf tz d = isoOfKey d) :
    safeValueRadiations params (.withHourly h) tz d =
      .ok (solarPercentSpec h.time diff d) ∧
    (∀ tz2 : Int, -1440 < tz2 → tz2 ≤ 0 →
      safeValueRadiations c3Params (.withHourly c4Hourly) tz2 20240101 =
        .ok (some ⟨20, 1⟩)) := by
  constructor
  · simp only [safeValueRadiations]
    rw [hd, htd]
    show Except.ok (radiationAverage h.time diff (isoOfKey d)) =
      .ok (solarPercentSpec h.time diff d)
    unfold solarPercentSpec
    rw [radiationAverage_eq_specAverage]
  · intro tz2 h1 h2
    have hstep : safeValueRadiations c3Params (.withHourly c4Hourly) tz2 20240101 =
        .ok (radiationAverage c4Hourly.time [some ⟨100, 1⟩, some ⟨300, 1⟩]
          (targetDateOf tz2 20240101)) := rfl
    have hdc : daysFromCivil 2024 1 1 = 19723 := by decide
    have htd2 : targetDateOf tz2 20240101 = "2024-01-01" := by
      show renderISODate (civilFromDays
        (Int.fdiv (daysFromCivil 2024 1 1 * 1440 - tz2) 1440)) = "2024-01-01"
      rw [hdc]
      have key : Int.fdiv (19723 * 1440 - tz2) 1440 = 19723 := by
        rw [Int.fdiv_eq_ediv _ (by norm_num)]
        omega
      rw [key]
      decide
    rw [hstep, htd2]
    decide

/-- Witness for C4 (amended): at offset `0` the hypotheses hold and the
scenario evaluates to `20.0` through the spec-side definition. -/
theorem solar_primary_refines_spec_witness :
    safeValueRadiations c3Params (.withHourly c4Hourly) 0 20240101 =
      .ok (solarPercentSpec c4Hourly.time [some ⟨100, 1⟩, some ⟨300, 1⟩]
        20240101) ∧
    solarPercentSpec c4Hourly.time [some ⟨100, 1⟩, some ⟨300, 1⟩] 20240101 =
      some ⟨20, 1⟩ :=
  ⟨(solar_primary_refines_spec c3Params c4Hourly
      [some ⟨100, 1⟩, some ⟨300, 1⟩] 0 20240101 rfl (by decide)).1,
    by decide⟩

